import Mathlib

/-
Verification of the Trippy travel-planner against its specification.
Shallow embedding of the Python source (backend.py, app.py, llm.py,
weather.py, hotel_search.py) as executable Lean definitions, followed by
theorems settling the specification claims.
-/

namespace Trippy

/-! ## JSON values and Python truthiness

The extraction step works on JSON objects decoded from model replies.
Field values are scalars (strings, numbers, booleans, null); Python
truthiness drives the merge filter in backend.py line 61. -/

inductive JsonVal where
  | vstr (s : String)
  | vint (n : Int)
  | vbool (b : Bool)
  | vnull
deriving DecidableEq, Repr

/-- Python truthiness of a JSON scalar: empty string, zero, False and
None are falsy. -/
def JsonVal.truthy : JsonVal → Bool
  | .vstr s => decide (s ≠ "")
  | .vint n => decide (n ≠ 0)
  | .vbool b => b
  | .vnull => false

/-- Python str() rendering used by f-string interpolation in prompts and
error messages. -/
def JsonVal.pyStr : JsonVal → String
  | .vstr s => s
  | .vint n => toString n
  | .vbool b => if b then "True" else "False"
  | .vnull => "None"

/-! ## The collected-info dictionary

`self.collected_info` in TravelPlannerBackend is a Python dict from field
name to JSON value; modelled as a partial function. -/

abbrev Dict := String → Option JsonVal

def emptyDict : Dict := fun _ => none

/-- Setting one key of a Python dict. -/
def dictSet (d : Dict) (k : String) (v : JsonVal) : Dict :=
  fun f => if f = k then some v else d f

/-- Python dict.update with another mapping, given as key-value pairs. -/
def dictUpdate (d : Dict) (kvs : List (String × JsonVal)) : Dict :=
  kvs.foldl (fun acc kv => dictSet acc kv.1 kv.2) d

/-- The dict comprehension at backend.py line 61:
info restricted to its truthy values. -/
def filterTruthy (kvs : List (String × JsonVal)) : List (String × JsonVal) :=
  kvs.filter (fun kv => kv.2.truthy)

/-! ## Required fields and the completeness check (backend.py 18, 73-99) -/

/-- The declared required-field list, backend.py line 18, in source order:
budget_per_person comes before number_of_children. -/
def required_fields : List String :=
  ["source", "destination", "start_date", "end_date", "number_of_adults",
   "budget_per_person", "number_of_children", "travel_style"]

/-- One field's test inside get_missing_fields:
field not in collected_info or not collected_info[field]. -/
def fieldMissing (d : Dict) (f : String) : Bool :=
  match d f with
  | none => true
  | some v => !v.truthy

/-- TravelPlannerBackend.get_missing_fields, backend.py 73-75. -/
def get_missing_fields (d : Dict) : List String :=
  required_fields.filter (fun f => fieldMissing d f)

/-- TravelPlannerBackend.is_info_complete, backend.py 77-79. -/
def is_info_complete (d : Dict) : Bool :=
  (get_missing_fields d).length == 0

/-- The display-name lookup table in get_missing_fields_message. -/
def field_names : List (String × String) :=
  [("source", "departure city/location"),
   ("destination", "destination city/country"),
   ("start_date", "start date of travel"),
   ("end_date", "end date of travel"),
   ("number_of_adults", "number of adults"),
   ("budget_per_person", "budget per person"),
   ("number_of_children", "number of children"),
   ("travel_style", "travel style (economy/balanced/luxury)")]

/-- TravelPlannerBackend.get_missing_fields_message, backend.py 81-99. -/
def get_missing_fields_message (d : Dict) : String :=
  let missing := get_missing_fields d
  if missing = [] then "All required information collected!"
  else "I still need the following information: " ++
    String.intercalate ", " (missing.map (fun f => (field_names.lookup f).getD f)) ++
    ". Please provide these details."

/-- A record with only destination set (the scenario named in C1). -/
def only_destination : Dict :=
  fun f => if f = "destination" then some (.vstr "Goa") else none

/-! ## Python string primitives used by the source -/

/-- Index of the first occurrence of a character in a list, if any. -/
def firstIdx (c : Char) : List Char → Option Nat
  | [] => none
  | x :: xs => if x = c then some 0 else (firstIdx c xs).map (fun i => i + 1)

/-- Python str.find for a single character: first index or -1. -/
def pyFindChar (s : String) (c : Char) : Int :=
  match firstIdx c s.data with
  | some i => (i : Int)
  | none => -1

/-- Python str.rfind for a single character: last index or -1. -/
def pyRfindChar (s : String) (c : Char) : Int :=
  match firstIdx c s.data.reverse with
  | some i => (s.data.length : Int) - 1 - i
  | none => -1

/-- Python slice s[i:j] for nonnegative bounds. -/
def pySlice (s : String) (i j : Nat) : String :=
  String.mk ((s.data.drop i).take (j - i))

def isPyWhitespace (c : Char) : Bool :=
  c = ' ' ∨ c = '\t' ∨ c = '\n' ∨ c = '\r' ∨ c = '\x0b' ∨ c = '\x0c'

/-- Python str.strip(): remove leading and trailing whitespace. -/
def pyStrip (s : String) : String :=
  String.mk (((s.data.dropWhile isPyWhitespace).reverse.dropWhile isPyWhitespace).reverse)

def asciiUpperChar (c : Char) : Char :=
  if 'a' ≤ c ∧ c ≤ 'z' then Char.ofNat (c.toNat - 32) else c

/-- Python str.upper() (ASCII fragment, enough for airport codes). -/
def pyUpper (s : String) : String :=
  String.mk (s.data.map asciiUpperChar)

/-- Python string repetition s * n (empty for n = 0). -/
def strRepeat (s : String) : Nat → String
  | 0 => ""
  | n + 1 => s ++ strRepeat s n

/-- Python s * n for an Int count: nonpositive counts give the empty
string. -/
def pyStrMul (s : String) (n : Int) : String :=
  strRepeat s n.toNat

/-- Python int() applied to a JSON scalar: ints pass through, numeric
strings are parsed (after stripping), booleans become 0/1, anything
else raises (None here). -/
def pyInt : JsonVal → Option Int
  | .vint n => some n
  | .vstr s => (pyStrip s).toInt?
  | .vbool b => some (if b then 1 else 0)
  | .vnull => none

/-- Substring check (Python "error" in s). -/
def hasSub (p : List Char) : List Char → Bool
  | [] => p.isPrefixOf []
  | c :: cs => p.isPrefixOf (c :: cs) || hasSub p cs

def has_error_sub (s : String) : Bool :=
  hasSub "error".data s.data

/-! ## Transcript messages and structured extraction (backend.py 22-71)

The model call itself is external; each operation takes the model's
reply as an oracle argument, and JSON decoding (json.loads) is an oracle
function from strings to decoded objects (none models a decode
exception). -/

structure ChatMsg where
  role : String
  content : String
deriving DecidableEq, Repr

abbrev ParseFn := String → Option (List (String × JsonVal))

/-- The bracket scan shared by extract_info_from_input, find_best_flight
and get_best_hotels: substring from the first brace to the last closing
brace, if the guard info_start != -1 and info_end != 0 passes. -/
def bracket_substring (resp : String) : Option String :=
  let info_start : Int := pyFindChar resp '{'
  let info_end : Int := pyRfindChar resp '}' + 1
  if info_start ≠ -1 ∧ info_end ≠ 0 then
    some (pySlice resp info_start.toNat info_end.toNat)
  else none

/-- Whether the decode step of extraction succeeds on a reply: the
bracket substring exists and json.loads accepts it. -/
def extract_decode_ok (parse : ParseFn) (resp : String) : Bool :=
  match bracket_substring resp with
  | some sub => (parse sub).isSome
  | none => false

structure ExtractResult where
  info : List (String × JsonVal)
  collected : Dict
  history : List ChatMsg

/-- TravelPlannerBackend.extract_info_from_input, backend.py 22-71:
scan the reply for the first brace and last closing brace, decode the
substring; on success merge the truthy fields into collected_info and
append the user input and raw reply to conversation_history; on any
decode failure return an empty record leaving both untouched. -/
def extract_info_from_input (collected : Dict) (history : List ChatMsg)
    (parse : ParseFn) (user_input info_response : String) : ExtractResult :=
  match bracket_substring info_response with
  | some info_json =>
    match parse info_json with
    | some info =>
      { info := info
        collected := dictUpdate collected (filterTruthy info)
        history := history ++
          [{ role := "user", content := user_input },
           { role := "assistant", content := info_response }] }
    | none => { info := [], collected := collected, history := history }
  | none => { info := [], collected := collected, history := history }

/-! ## Flight adapter (backend.py 101-134) -/

/-- The four model replies consumed by get_flights_info, in call order:
source airport code, destination airport code, formatted start date,
formatted end date. -/
structure FlightLLM where
  source_code : String
  destination_code : String
  start_date_fmt : String
  end_date_fmt : String

inductive FlightsResult where
  | ok (start_flights end_flights : String)
  | error (msg : String)
deriving DecidableEq, Repr

/-- Result of get_flights_info together with how many times the external
flight provider (search_flights) was invoked. -/
structure FlightsOutcome where
  result : FlightsResult
  providerCalls : Nat
deriving DecidableEq, Repr

/-- TravelPlannerBackend.get_flights_info, backend.py 101-134: read the
four trip fields (KeyError on a missing one is caught into a wrapped
error), resolve the source airport code and fail with the NoAirportFound
message if it strips and uppercases to the sentinel, then likewise for
the destination, then call the provider once per direction; provider
exceptions are wrapped, not thrown. -/
def get_flights_info (collected : Dict) (o : FlightLLM)
    (provider : String → String → String → Except String String) : FlightsOutcome :=
  match collected "source", collected "destination",
        collected "start_date", collected "end_date" with
  | some source, some destination, some _, some _ =>
    if pyUpper (pyStrip o.source_code) = "N/A" then
      ⟨.error ("No airport found for source: " ++ source.pyStr), 0⟩
    else if pyUpper (pyStrip o.destination_code) = "N/A" then
      ⟨.error ("No airport found for destination: " ++ destination.pyStr), 0⟩
    else
      match provider (pyStrip o.source_code) (pyStrip o.destination_code)
              (pyStrip o.start_date_fmt) with
      | .error e => ⟨.error ("Error getting flight information: " ++ e), 1⟩
      | .ok start_flights =>
        match provider (pyStrip o.destination_code) (pyStrip o.source_code)
                (pyStrip o.end_date_fmt) with
        | .error e => ⟨.error ("Error getting flight information: " ++ e), 2⟩
        | .ok end_flights => ⟨.ok start_flights end_flights, 2⟩
  | _, _, _, _ => ⟨.error "Error getting flight information: KeyError", 0⟩

/-! ## Ranking step (backend.py 136-190 and 223-266) -/

inductive RankResult where
  | parsed (payload : String)
  | error (msg : String)
deriving DecidableEq, Repr

/-- Python str() of the ranking value, used by the driver's
"error" not in str(...) checks. -/
def RankResult.render : RankResult → String
  | .parsed p => p
  | .error m => "\x7b'error': '" ++ m ++ "'\x7d"

/-- TravelPlannerBackend.find_best_flight, backend.py 136-190: needs
budget_per_person (KeyError caught into a wrapped error), then applies
the same bracket scan and json.loads to the model's reply. -/
def find_best_flight (collected : Dict) (parse : String → Option String)
    (resp : String) : RankResult :=
  match collected "budget_per_person" with
  | none => .error "Error finding best flight: KeyError"
  | some _ =>
    match bracket_substring resp with
    | some sub =>
      match parse sub with
      | some sel => .parsed sel
      | none => .error "Error finding best flight: JSONDecodeError"
    | none => .error "Could not parse flight response"

/-- TravelPlannerBackend.get_best_hotels, backend.py 223-266: same shape
as find_best_flight. -/
def get_best_hotels (collected : Dict) (parse : String → Option String)
    (resp : String) : RankResult :=
  match collected "budget_per_person" with
  | none => .error "Error finding best hotel: KeyError"
  | some _ =>
    match bracket_substring resp with
    | some sub =>
      match parse sub with
      | some sel => .parsed sel
      | none => .error "Error finding best hotel: JSONDecodeError"
    | none => .error "Could not parse hotel response"

/-! ## Hotel adapter (backend.py 192-221) -/

/-- The two model replies consumed by get_hotels_info: the formatted
check-in and check-out dates. -/
structure HotelLLM where
  start_date_fmt : String
  end_date_fmt : String

/-- The argument record passed to search_hotels (hotel_search.py). -/
structure HotelParams where
  location : String
  check_in_date : String
  check_out_date : String
  adults : Int
  children : Int
  children_ages : String
deriving DecidableEq, Repr

inductive HotelsResult where
  | ok (hotels : String)
  | error (msg : String)
deriving DecidableEq, Repr

/-- Result of get_hotels_info plus the exact parameter record handed to
the provider (none when the provider was never reached). -/
structure HotelsOutcome where
  result : HotelsResult
  calledWith : Option HotelParams
deriving DecidableEq, Repr

/-- The child-ages synthesis at backend.py 208-209:
children_ages = "8," * int(number_of_children), then drop the trailing
comma when nonempty. -/
def children_ages_of (n : Int) : String :=
  let ca := pyStrMul "8," n
  if ca = "" then "" else String.mk ca.data.dropLast

/-- TravelPlannerBackend.get_hotels_info, backend.py 192-221: read the
five trip fields (KeyError caught), convert both counts with int()
(ValueError caught), synthesize children_ages, and call search_hotels
once; provider exceptions are wrapped, not thrown. -/
def get_hotels_info (collected : Dict) (o : HotelLLM)
    (provider : HotelParams → Except String String) : HotelsOutcome :=
  match collected "destination", collected "start_date", collected "end_date",
        collected "number_of_adults", collected "number_of_children" with
  | some destination, some _, some _, some na, some nc =>
    match pyInt na, pyInt nc with
    | some adultsN, some childrenN =>
      let params : HotelParams :=
        { location := destination.pyStr
          check_in_date := pyStrip o.start_date_fmt
          check_out_date := pyStrip o.end_date_fmt
          adults := adultsN
          children := childrenN
          children_ages := children_ages_of childrenN }
      match provider params with
      | .ok h => ⟨.ok h, some params⟩
      | .error e => ⟨.error ("Error getting hotel information: " ++ e), some params⟩
    | _, _ => ⟨.error "Error getting hotel information: ValueError", none⟩
  | _, _, _, _, _ => ⟨.error "Error getting hotel information: KeyError", none⟩

/-! ## Weather / destination-recommendation collaborator (weather.py) -/

structure Suggestion where
  destination : String
  country : String
deriving DecidableEq, Repr

/-- weather.py 45-52: the start date is within the forecast horizon when
the computed day difference from today is between 0 and 14. -/
def check_date_within_forecast_range (days_difference : Int) : Bool :=
  decide (0 ≤ days_difference ∧ days_difference ≤ 14)

inductive WeatherRes where
  | success (data : String)
  | use_llm
  | error (msg : String)
deriving DecidableEq, Repr

/-- weather.py 56-112, get_weather_forecast: out of range yields the
use_llm status without touching the API; otherwise one API request whose
failure is wrapped into an error status. -/
def get_weather_forecast (days_difference : Int)
    (api : Except String String) : WeatherRes :=
  if ¬ check_date_within_forecast_range days_difference then .use_llm
  else
    match api with
    | .ok d => .success d
    | .error e => .error ("Weather API error: " ++ e)

inductive TravelDestResult where
  | suggestions (l : List Suggestion)
  | best (s : Suggestion)
  | raised (e : String)
deriving DecidableEq, Repr

/-- Result of get_travel_destination plus how many times each external
collaborator was invoked. -/
structure TravelDestOutcome where
  result : TravelDestResult
  suggestionCalls : Nat
  weatherCalls : Nat
  rerankCalled : Bool
deriving DecidableEq, Repr

/-- weather.py 116-172, get_travel_destination: always obtain the model
suggestions first; beyond the forecast horizon return them untouched
with no weather lookup; within it, query the weather API once per
candidate, and when any forecast succeeded ask the model to re-rank
(the re-rank reply's decode failure raises); with no forecast data the
raw suggestions come back unranked. -/
def get_travel_destination (days_difference : Int)
    (suggested_places : List Suggestion)
    (weatherApi : Suggestion → Except String String)
    (rerankParse : Option Suggestion) : TravelDestOutcome :=
  if ¬ check_date_within_forecast_range days_difference then
    ⟨.suggestions suggested_places, 1, 0, false⟩
  else
    let weather_data := suggested_places.filterMap (fun p =>
      match get_weather_forecast days_difference (weatherApi p) with
      | .success d => some (p, d)
      | _ => none)
    if weather_data ≠ [] then
      match rerankParse with
      | some best => ⟨.best best, 1, suggested_places.length, true⟩
      | none => ⟨.raised "JSONDecodeError", 1, suggested_places.length, true⟩
    else
      ⟨.suggestions suggested_places, 1, suggested_places.length, false⟩

/-! ## Language-model client retry loop (llm.py 112-140)

Each attempt (token check, refresh, invoke) either yields the reply text
or raises; the oracle gives attempt k's outcome. Every exception is
caught inside the loop; after the loop the code executes
return response.content unconditionally, so when no attempt succeeded
the local variable response was never assigned. -/

inductive InfResult where
  | ok (text : String)
  | exhausted_retries (msg : String)
  | raised_transport (e : String)
  | raised_unbound_local
deriving DecidableEq, Repr

def inference_loop (attempts : Nat → Except String String) :
    Nat → Nat → InfResult
  | 0, _ => .raised_unbound_local
  | fuel + 1, k =>
    match attempts k with
    | .ok t => .ok t
    | .error _ => inference_loop attempts fuel (k + 1)

/-- LLM.inference, llm.py 112-140: while err and retries < 5, try one
attempt; success returns its text, failure increments retries; after
five failures the trailing return reads the unassigned response
variable. -/
def inference (attempts : Nat → Except String String) : InfResult :=
  inference_loop attempts 5 0

/-! ## Conversation driver state machine (app.py) -/

inductive Stage where
  | collecting_info
  | searching_flights_hotels
  | creating_itinerary
  | completed
deriving DecidableEq, Repr

/-- Position of a stage in the forward-only sequence. -/
def Stage.idx : Stage → Nat
  | .collecting_info => 0
  | .searching_flights_hotels => 1
  | .creating_itinerary => 2
  | .completed => 3

/-- The per-session state: the backend's collected_info and
conversation_history plus the Streamlit session keys set in
initialize_session_state (app.py 14-27); best_flights and best_hotels
are the keys first created in search_flights_and_hotels (app.py
124-125), absent (none) until then. -/
structure AppState where
  collected : Dict
  history : List ChatMsg
  messages : List ChatMsg
  stage : Stage
  flights_info : Option FlightsResult
  hotels_info : Option String
  best_flights : Option RankResult
  best_hotels : Option RankResult
  itinerary_ready : Bool

/-- The session as initialize_session_state creates it. -/
def initial_state : AppState :=
  { collected := emptyDict
    history := []
    messages := []
    stage := .collecting_info
    flights_info := none
    hotels_info := none
    best_flights := none
    best_hotels := none
    itinerary_ready := false }

/-- app.py 29-36 plus backend.py 355-358: the full reset. It reassigns
every key listed in reset_session; best_flights and best_hotels are not
among them. -/
def reset_session (s : AppState) : AppState :=
  { collected := emptyDict
    history := []
    messages := []
    stage := .collecting_info
    flights_info := none
    hotels_info := none
    best_flights := s.best_flights
    best_hotels := s.best_hotels
    itinerary_ready := false }

/-- app.py 67-84, process_user_input: append the user message, run one
extraction, and either advance to searching_flights_hotels when the
info became complete or append the missing-fields prompt. -/
def process_user_input (s : AppState) (u resp : String) (parse : ParseFn) :
    AppState :=
  let s1 := { s with messages := s.messages ++ [{ role := "user", content := u }] }
  if s1.stage = Stage.collecting_info then
    let r := extract_info_from_input s1.collected s1.history parse u resp
    let s2 := { s1 with collected := r.collected, history := r.history }
    if is_info_complete s2.collected then
      { s2 with
        messages := s2.messages ++
          [{ role := "assistant",
             content := "Great! I have all the information I need. Let me search for flights and hotels for you..." }]
        stage := .searching_flights_hotels }
    else
      { s2 with
        messages := s2.messages ++
          [{ role := "assistant", content := get_missing_fields_message s2.collected }] }
  else s1

/-- All external replies consumed by one run of
search_flights_and_hotels: the flight-side oracles (airport codes,
dates, provider, ranking reply and its decode) and the hotel-side ones. -/
structure SearchOracles where
  fo : FlightLLM
  fprov : String → String → String → Except String String
  bf_resp : String
  bf_parse : String → Option String
  ho : HotelLLM
  hprov : HotelParams → Except String String
  bh_resp : String
  bh_parse : String → Option String

/-- app.py 86-125, search_flights_and_hotels: run the flight adapter
(storing none on an error-tagged result), then the hotel adapter
likewise, then compute the best-flight and best-hotel selections when
their search result survived, store both selections, and always advance
the stage to creating_itinerary. -/
def search_flights_and_hotels (s : AppState) (o : SearchOracles) : AppState :=
  let fOut := get_flights_info s.collected o.fo o.fprov
  let s1 : AppState :=
    match fOut.result with
    | .error m =>
      { s with
        messages := s.messages ++
          [{ role := "assistant", content := "Flight search error: " ++ m }]
        flights_info := none }
    | .ok sf ef =>
      { s with
        flights_info := some (.ok sf ef)
        messages := s.messages ++
          [{ role := "assistant", content := "Found flight options!" }] }
  let hOut := get_hotels_info s1.collected o.ho o.hprov
  let s2 : AppState :=
    match hOut.result with
    | .error m =>
      { s1 with
        messages := s1.messages ++
          [{ role := "assistant", content := "Hotel search error: " ++ m }]
        hotels_info := none }
    | .ok h =>
      { s1 with
        hotels_info := some h
        messages := s1.messages ++
          [{ role := "assistant", content := "Found hotel options!" }] }
  let bestF : Option RankResult :=
    match s2.flights_info with
    | some _ => some (find_best_flight s2.collected o.bf_parse o.bf_resp)
    | none => none
  let s3 : AppState :=
    match bestF with
    | some r =>
      if ¬ has_error_sub r.render then
        { s2 with
          messages := s2.messages ++
            [{ role := "assistant",
               content := "Selected best flights based on your preferences!" }] }
      else s2
    | none => s2
  let bestH : Option RankResult :=
    match s3.hotels_info with
    | some h =>
      if h ≠ "" ∧ ¬ has_error_sub h then
        some (get_best_hotels s3.collected o.bh_parse o.bh_resp)
      else none
    | none => none
  let s4 : AppState :=
    match bestH with
    | some r =>
      if ¬ has_error_sub r.render then
        { s3 with
          messages := s3.messages ++
            [{ role := "assistant",
               content := "Selected best hotels based on your preferences!" }] }
      else s3
    | none => s3
  { s4 with
    messages := s4.messages ++
      [{ role := "assistant", content := "Now let me create your personalized itinerary..." }]
    best_flights := bestF
    best_hotels := bestH
    stage := .creating_itinerary }

/-- One interaction with the app's main loop; each constructor carries
the external replies it consumes. -/
inductive Event where
  | user_message (u resp : String) (parse : ParseFn)
  | run_search (o : SearchOracles)
  | run_compose (itinerary : String)
  | reset

/-- The driver (app.py main, 195-220): user input is processed during
collecting_info, answered directly during completed (when the itinerary
is ready), and unavailable otherwise; the searching and creating stages
run their body exactly when the stage matches; create_itinerary (app.py
127-137) always ends at completed. -/
def appStep (s : AppState) (e : Event) : AppState :=
  match e with
  | .reset => reset_session s
  | .user_message u resp parse =>
    match s.stage with
    | .collecting_info => process_user_input s u resp parse
    | .completed =>
      if s.itinerary_ready then
        { s with
          messages := s.messages ++
            [{ role := "user", content := u }, { role := "assistant", content := resp }] }
      else s
    | _ => s
  | .run_search o =>
    match s.stage with
    | .searching_flights_hotels => search_flights_and_hotels s o
    | _ => s
  | .run_compose itinerary =>
    match s.stage with
    | .creating_itinerary =>
      { s with
        messages := s.messages ++
          [{ role := "assistant",
             content := "Your Personalized Travel Itinerary is Ready! " ++ itinerary }]
        itinerary_ready := true
        stage := .completed }
    | _ => s

/-! ## Helper lemmas -/

lemma data_append (a b : String) : (a ++ b).data = a.data ++ b.data := rfl

lemma mk_data : ∀ s : String, String.mk s.data = s
  | ⟨_⟩ => rfl

lemma fieldMissing_dictSet (d : Dict) (k : String) (v : JsonVal) (f : String) :
    fieldMissing (dictSet d k v) f = if f = k then !v.truthy else fieldMissing d f := by
  by_cases h : f = k <;> simp [fieldMissing, dictSet, h]

lemma dictUpdate_cons (d : Dict) (kv : String × JsonVal)
    (rest : List (String × JsonVal)) :
    dictUpdate d (kv :: rest) = dictUpdate (dictSet d kv.1 kv.2) rest := rfl

/-- Merging only truthy pairs never makes a present-and-truthy field
missing. -/
lemma dictUpdate_truthy_preserve (kvs : List (String × JsonVal)) :
    ∀ d f, (∀ kv ∈ kvs, kv.2.truthy = true) → fieldMissing d f = false →
      fieldMissing (dictUpdate d kvs) f = false := by
  induction kvs with
  | nil => intro d f _ hm; exact hm
  | cons kv rest ih =>
    intro d f hall hm
    rw [dictUpdate_cons]
    apply ih
    · intro kv' h'; exact hall kv' (List.mem_cons_of_mem _ h')
    · rw [fieldMissing_dictSet]
      by_cases hfk : f = kv.1
      · simp [hfk, hall kv (List.mem_cons_self _ _)]
      · simp [hfk, hm]

/-- An extraction never makes a present-and-truthy field missing. -/
lemma extract_collected_preserve (c : Dict) (h : List ChatMsg) (parse : ParseFn)
    (u resp f : String) (hm : fieldMissing c f = false) :
    fieldMissing (extract_info_from_input c h parse u resp).collected f = false := by
  unfold extract_info_from_input
  cases hb : bracket_substring resp with
  | none => simpa using hm
  | some sub =>
    cases hp : parse sub with
    | none => simpa [hp] using hm
    | some info =>
      simp only [hp]
      apply dictUpdate_truthy_preserve
      · intro kv hkv
        exact (List.mem_filter.mp hkv).2
      · exact hm

/-- A failed decode leaves extraction without effect. -/
lemma extract_of_fail (c : Dict) (h : List ChatMsg) (parse : ParseFn)
    (u resp : String) (hfail : extract_decode_ok parse resp = false) :
    extract_info_from_input c h parse u resp =
      { info := [], collected := c, history := h } := by
  unfold extract_info_from_input
  cases hb : bracket_substring resp with
  | none => rfl
  | some sub =>
    cases hp : parse sub with
    | none => simp [hp]
    | some info =>
      exfalso
      simp only [extract_decode_ok, hb] at hfail
      rw [hp] at hfail
      simp at hfail

/-- A successful decode appends exactly the user input and the raw reply
to the history. -/
lemma extract_of_ok (c : Dict) (h : List ChatMsg) (parse : ParseFn)
    (u resp : String) (hok : extract_decode_ok parse resp = true) :
    (extract_info_from_input c h parse u resp).history =
      h ++ [{ role := "user", content := u },
            { role := "assistant", content := resp }] := by
  unfold extract_info_from_input
  cases hb : bracket_substring resp with
  | none =>
    simp only [extract_decode_ok, hb] at hok
    exact absurd hok (by decide)
  | some sub =>
    cases hp : parse sub with
    | none =>
      simp only [extract_decode_ok, hb] at hok
      rw [hp] at hok
      simp at hok
    | some info => simp [hp]

lemma process_user_input_collected (s : AppState) (u resp : String) (parse : ParseFn) :
    (process_user_input s u resp parse).collected =
      if s.stage = Stage.collecting_info then
        (extract_info_from_input s.collected s.history parse u resp).collected
      else s.collected := by
  unfold process_user_input
  by_cases h : s.stage = Stage.collecting_info
  · simp only [h, if_true]
    split <;> rfl
  · simp [h]

lemma process_user_input_stage (s : AppState) (u resp : String) (parse : ParseFn)
    (h : s.stage = Stage.collecting_info) :
    (process_user_input s u resp parse).stage =
      if is_info_complete (extract_info_from_input s.collected s.history parse u resp).collected
      then Stage.searching_flights_hotels else Stage.collecting_info := by
  unfold process_user_input
  simp only [h, if_true]
  split
  · rfl
  · simp

lemma sfh_stage (s : AppState) (o : SearchOracles) :
    (search_flights_and_hotels s o).stage = Stage.creating_itinerary := rfl

lemma sfh_collected (s : AppState) (o : SearchOracles) :
    (search_flights_and_hotels s o).collected = s.collected := by
  unfold search_flights_and_hotels
  dsimp only
  repeat' split
  all_goals rfl

lemma sfh_hotels_info (s : AppState) (o : SearchOracles) :
    (search_flights_and_hotels s o).hotels_info =
      match (get_hotels_info s.collected o.ho o.hprov).result with
      | .ok h => some h
      | .error _ => none := by
  unfold search_flights_and_hotels
  dsimp only
  cases hf : (get_flights_info s.collected o.fo o.fprov).result <;>
    dsimp only <;>
    cases hh : (get_hotels_info s.collected o.ho o.hprov).result <;>
    dsimp only <;>
    repeat' split
  all_goals rfl

lemma inference_loop_cases (a : Nat → Except String String) :
    ∀ fuel k, (∃ t, inference_loop a fuel k = .ok t) ∨
      inference_loop a fuel k = .raised_unbound_local := by
  intro fuel
  induction fuel with
  | zero => intro k; right; rfl
  | succ n ih =>
    intro k
    cases h : a k with
    | ok t => left; exact ⟨t, by simp [inference_loop, h]⟩
    | error e =>
      have h2 := ih (k + 1)
      rcases h2 with ⟨t, ht⟩ | hu
      · left; exact ⟨t, by simp [inference_loop, h, ht]⟩
      · right; simp [inference_loop, h, hu]

/-! ## Claim C2 -/

/-- C2 (code bug evidence): the retry loop makes at most five attempts
and never re-raises a transport error, but it also never produces an
explicit exhausted-retries failure: when all five attempts fail, the
trailing return reads the never-assigned response variable and the call
raises UnboundLocalError, an uncontrolled exception, to the caller. -/
theorem C2_inference_behavior :
    inference (fun _ => Except.error "connection reset by peer") =
      InfResult.raised_unbound_local
    ∧ (∀ a e, inference a ≠ InfResult.raised_transport e)
    ∧ (∀ a m, inference a ≠ InfResult.exhausted_retries m)
    ∧ (∀ a, inference a =
        inference (fun k => if k < 5 then a k else Except.error "")) := by
  refine ⟨rfl, ?_, ?_, ?_⟩
  · intro a e
    rcases inference_loop_cases a 5 0 with ⟨t, ht⟩ | hu
    · simp [inference, ht]
    · simp [inference, hu]
  · intro a m
    rcases inference_loop_cases a 5 0 with ⟨t, ht⟩ | hu
    · simp [inference, ht]
    · simp [inference, hu]
  · intro a
    simp [inference, inference_loop]

/-! ## Claim C3 -/

/-- A completed session whose best-flight and best-hotel selections were
cached during the search stage. -/
def completed_state : AppState :=
  { initial_state with
    stage := .completed
    itinerary_ready := true
    best_flights := some (.parsed "flight pair")
    best_hotels := some (.parsed "hotel") }

/-- C3 counterexample: resetting a completed session with cached best
selections does not return it to the initial state, because reset leaves
best_flights (and best_hotels) untouched. -/
theorem C3_counterexample : appStep completed_state .reset ≠ initial_state := by
  intro h
  have hb := congrArg AppState.best_flights h
  simp [appStep, reset_session, completed_state, initial_state] at hb

/-- C3 (amended): the full reset clears the TripRequest mapping, the
backend transcript, the chat messages, the stage, the flight and hotel
search results and the itinerary flag to their initial values in the one
reset step, but it leaves the cached best-flight and best-hotel
selections unchanged rather than clearing them. -/
theorem C3_reset_behavior (s : AppState) :
    (appStep s .reset).collected = initial_state.collected
    ∧ (∀ f, (appStep s .reset).collected f = none)
    ∧ (appStep s .reset).history = []
    ∧ (appStep s .reset).messages = []
    ∧ (appStep s .reset).stage = Stage.collecting_info
    ∧ (appStep s .reset).flights_info = none
    ∧ (appStep s .reset).hotels_info = none
    ∧ (appStep s .reset).itinerary_ready = false
    ∧ (appStep s .reset).best_flights = s.best_flights
    ∧ (appStep s .reset).best_hotels = s.best_hotels := by
  refine ⟨rfl, fun f => rfl, rfl, rfl, rfl, rfl, rfl, rfl, rfl, rfl⟩

lemma appStep_user_stage (s : AppState) (u resp : String) (parse : ParseFn) :
    (appStep s (.user_message u resp parse)).stage =
      (if s.stage = Stage.collecting_info then
        (if is_info_complete
              (extract_info_from_input s.collected s.history parse u resp).collected
          then Stage.searching_flights_hotels else Stage.collecting_info)
        else s.stage) := by
  cases hst : s.stage
  case collecting_info =>
    simp only [appStep, hst]
    rw [process_user_input_stage _ _ _ _ hst]
    simp
  case searching_flights_hotels => simp [appStep, hst]
  case creating_itinerary => simp [appStep, hst]
  case completed =>
    simp only [appStep, hst]
    split <;> simp [hst]

lemma appStep_search_stage (s : AppState) (o : SearchOracles) :
    (appStep s (.run_search o)).stage =
      (if s.stage = Stage.searching_flights_hotels
        then Stage.creating_itinerary else s.stage) := by
  cases hst : s.stage <;> simp [appStep, hst, sfh_stage]

lemma appStep_compose_stage (s : AppState) (itinerary : String) :
    (appStep s (.run_compose itinerary)).stage =
      (if s.stage = Stage.creating_itinerary then Stage.completed else s.stage) := by
  cases hst : s.stage <;> simp [appStep, hst]

/-! ## Claim C4 -/

/-- C4: merge is monotonic. A field of collected_info holding a truthy
value stays present and truthy across extraction (whatever the model
reply decodes to, including records omitting the field or mapping it to
a falsy value) and across every non-reset driver step. -/
theorem C4_merge_monotonic (s : AppState) (u resp : String) (parse : ParseFn)
    (o : SearchOracles) (itinerary : String) (f : String)
    (hm : fieldMissing s.collected f = false) :
    fieldMissing (extract_info_from_input s.collected s.history parse u resp).collected f = false
    ∧ fieldMissing (appStep s (.user_message u resp parse)).collected f = false
    ∧ fieldMissing (appStep s (.run_search o)).collected f = false
    ∧ fieldMissing (appStep s (.run_compose itinerary)).collected f = false := by
  refine ⟨extract_collected_preserve _ _ _ _ _ _ hm, ?_, ?_, ?_⟩
  · cases hst : s.stage <;> simp only [appStep, hst]
    · rw [process_user_input_collected]
      rw [hst]
      simp only [if_true]
      exact extract_collected_preserve _ _ _ _ _ _ hm
    · exact hm
    · exact hm
    · split <;> exact hm
  · cases hst : s.stage <;> simp only [appStep, hst]
    · exact hm
    · rw [sfh_collected]; exact hm
    · exact hm
    · exact hm
  · cases hst : s.stage <;> simp only [appStep, hst]
    · exact hm
    · exact hm
    · exact hm
    · exact hm

/-- A sample session that has learned a destination. -/
def dest_state : AppState :=
  { initial_state with collected := only_destination }

/-- Fixed sample oracles for the search stage. -/
def sample_oracles : SearchOracles :=
  { fo := { source_code := "DEL", destination_code := "GOI",
            start_date_fmt := "2025-06-10", end_date_fmt := "2025-06-15" }
    fprov := fun _ _ _ => .ok "flight list"
    bf_resp := "no braces"
    bf_parse := fun _ => none
    ho := { start_date_fmt := "2025-06-10", end_date_fmt := "2025-06-15" }
    hprov := fun _ => .ok "hotel list"
    bh_resp := "no braces"
    bh_parse := fun _ => none }

/-- C4 witness: a destination already set to the truthy value Goa
survives an extraction that maps destination to the empty string and
source to null, and survives each non-reset driver step. -/
theorem C4_merge_monotonic_witness :
    fieldMissing dest_state.collected "destination" = false
    ∧ (fieldMissing (extract_info_from_input dest_state.collected dest_state.history
          (fun _ => some [("destination", .vstr ""), ("source", .vnull)])
          "hi" "{ }").collected "destination" = false
      ∧ fieldMissing (appStep dest_state (.user_message "hi" "{ }"
          (fun _ => some [("destination", .vstr ""), ("source", .vnull)]))).collected
          "destination" = false
      ∧ fieldMissing (appStep dest_state (.run_search sample_oracles)).collected
          "destination" = false
      ∧ fieldMissing (appStep dest_state (.run_compose "trip")).collected
          "destination" = false) :=
  ⟨by decide,
   C4_merge_monotonic dest_state "hi" "{ }"
     (fun _ => some [("destination", .vstr ""), ("source", .vnull)])
     sample_oracles "trip" "destination" (by decide)⟩

/-! ## Claim C5 -/

/-- C5: extraction scans the reply for the bracketed substring and
decodes it; when there is no such substring or the decode fails it
returns an empty record, leaves collected_info, the transcript and the
stage unchanged, and nothing is raised (the embedding is total); the
user input and raw model reply are appended to the transcript exactly
when the decode succeeds. -/
theorem C5_extraction_failure (s : AppState) (parse : ParseFn)
    (u resp resp2 : String)
    (hfail : extract_decode_ok parse resp = false)
    (hinc : is_info_complete s.collected = false) :
    (extract_info_from_input s.collected s.history parse u resp).info = []
    ∧ (extract_info_from_input s.collected s.history parse u resp).collected = s.collected
    ∧ (extract_info_from_input s.collected s.history parse u resp).history = s.history
    ∧ (appStep s (.user_message u resp parse)).stage = s.stage
    ∧ ((extract_decode_ok parse resp2 = true ∧
          (extract_info_from_input s.collected s.history parse u resp2).history =
            s.history ++ [{ role := "user", content := u },
                          { role := "assistant", content := resp2 }])
        ∨ (extract_decode_ok parse resp2 = false ∧
          (extract_info_from_input s.collected s.history parse u resp2).history =
            s.history)) := by
  have hx := extract_of_fail s.collected s.history parse u resp hfail
  refine ⟨by rw [hx], by rw [hx], by rw [hx], ?_, ?_⟩
  · rw [appStep_user_stage, hx]
    by_cases hst : s.stage = Stage.collecting_info
    · simp [hst, hinc]
    · simp [hst]
  · cases hok : extract_decode_ok parse resp2 with
    | true => exact Or.inl ⟨rfl, extract_of_ok _ _ _ _ _ hok⟩
    | false => exact Or.inr ⟨rfl, by rw [extract_of_fail _ _ _ _ _ hok]⟩

/-- C5 witness: on a reply with no braces, against a decoder that always
fails, extraction on the fresh session changes nothing and the stage
stays put. -/
theorem C5_extraction_failure_witness :
    extract_decode_ok (fun _ => none) "no braces here" = false
    ∧ is_info_complete initial_state.collected = false
    ∧ ((extract_info_from_input initial_state.collected initial_state.history
          (fun _ => none) "hi" "no braces here").info = []
      ∧ (extract_info_from_input initial_state.collected initial_state.history
          (fun _ => none) "hi" "no braces here").collected = initial_state.collected
      ∧ (extract_info_from_input initial_state.collected initial_state.history
          (fun _ => none) "hi" "no braces here").history = initial_state.history
      ∧ (appStep initial_state (.user_message "hi" "no braces here" (fun _ => none))).stage =
          initial_state.stage
      ∧ ((extract_decode_ok (fun _ => none) "also no braces" = true ∧
            (extract_info_from_input initial_state.collected initial_state.history
              (fun _ => none) "hi" "also no braces").history =
              initial_state.history ++ [{ role := "user", content := "hi" },
                                        { role := "assistant", content := "also no braces" }])
          ∨ (extract_decode_ok (fun _ => none) "also no braces" = false ∧
            (extract_info_from_input initial_state.collected initial_state.history
              (fun _ => none) "hi" "also no braces").history = initial_state.history))) :=
  ⟨by decide, by decide,
   C5_extraction_failure initial_state (fun _ => none) "hi" "no braces here"
     "also no braces" (by decide) (by decide)⟩

/-! ## Claim C7 -/

/-- C7: the stage only moves forward. No non-reset event lowers the
stage index; during collecting_info a user message advances to
searching_flights_hotels exactly when the completeness check holds on
the collected info after the extraction; the searching stage always ends
at creating_itinerary and the creating stage always ends at completed,
whatever the adapter, ranking or compose oracles returned; reset alone
returns to collecting_info. -/
theorem C7_stage_forward (s : AppState) (u resp : String) (parse : ParseFn)
    (o : SearchOracles) (itinerary : String) :
    s.stage.idx ≤ (appStep s (.user_message u resp parse)).stage.idx
    ∧ s.stage.idx ≤ (appStep s (.run_search o)).stage.idx
    ∧ s.stage.idx ≤ (appStep s (.run_compose itinerary)).stage.idx
    ∧ (appStep s (.user_message u resp parse)).stage =
        (if s.stage = Stage.collecting_info then
          (if is_info_complete
                (extract_info_from_input s.collected s.history parse u resp).collected
            then Stage.searching_flights_hotels else Stage.collecting_info)
          else s.stage)
    ∧ (appStep s (.run_search o)).stage =
        (if s.stage = Stage.searching_flights_hotels
          then Stage.creating_itinerary else s.stage)
    ∧ (appStep s (.run_compose itinerary)).stage =
        (if s.stage = Stage.creating_itinerary then Stage.completed else s.stage)
    ∧ (appStep s .reset).stage = Stage.collecting_info := by
  refine ⟨?_, ?_, ?_, appStep_user_stage s u resp parse,
    appStep_search_stage s o, appStep_compose_stage s itinerary, rfl⟩
  · rw [appStep_user_stage]
    by_cases hc : s.stage = Stage.collecting_info
    · simp only [hc, if_true]
      split <;> simp [Stage.idx, hc]
    · simp [hc]
  · rw [appStep_search_stage]
    by_cases hc : s.stage = Stage.searching_flights_hotels
    · simp [hc, Stage.idx]
    · simp [hc]
  · rw [appStep_compose_stage]
    by_cases hc : s.stage = Stage.creating_itinerary
    · simp [hc, Stage.idx]
    · simp [hc]

/-! ## Claim C6 -/

/-- C6: when the airport-code reply for the source strips and uppercases
to the sentinel, get_flights_info returns the error result naming the
source location without a single provider call (the source is checked
before the destination, whatever the destination reply is), and the
hotels_info produced by the combined search step does not depend on any
of the flight-side oracles. -/
theorem C6_no_airport_source
    (collected : Dict) (srcv dstv sdv edv : JsonVal)
    (fo fo2 : FlightLLM) (fprov fprov2 : String → String → String → Except String String)
    (bfr bfr2 : String) (bfp bfp2 : String → Option String)
    (ho : HotelLLM) (hprov : HotelParams → Except String String)
    (bhr : String) (bhp : String → Option String) (s : AppState)
    (hsrc : collected "source" = some srcv)
    (hdst : collected "destination" = some dstv)
    (hsd : collected "start_date" = some sdv)
    (hed : collected "end_date" = some edv)
    (hna : pyUpper (pyStrip fo.source_code) = "N/A") :
    get_flights_info collected fo fprov =
      { result := .error ("No airport found for source: " ++ srcv.pyStr)
        providerCalls := 0 }
    ∧ (search_flights_and_hotels s
        { fo := fo, fprov := fprov, bf_resp := bfr, bf_parse := bfp,
          ho := ho, hprov := hprov, bh_resp := bhr, bh_parse := bhp }).hotels_info =
      (search_flights_and_hotels s
        { fo := fo2, fprov := fprov2, bf_resp := bfr2, bf_parse := bfp2,
          ho := ho, hprov := hprov, bh_resp := bhr, bh_parse := bhp }).hotels_info := by
  constructor
  · unfold get_flights_info
    rw [hsrc, hdst, hsd, hed]
    simp [hna]
  · rw [sfh_hotels_info, sfh_hotels_info]

/-- A session holding the complete sample trip request. -/
def full_trip : Dict :=
  dictUpdate emptyDict
    [("source", .vstr "Delhi"), ("destination", .vstr "Goa"),
     ("start_date", .vstr "June 10"), ("end_date", .vstr "June 15"),
     ("number_of_adults", .vint 2), ("budget_per_person", .vint 20000),
     ("number_of_children", .vint 0), ("travel_style", .vstr "economy")]

def full_trip_state : AppState :=
  { initial_state with collected := full_trip, stage := .searching_flights_hotels }

/-- C6 witness: with the complete sample request and a source airport
reply of lowercase n/a with spaces, the flight adapter reports the
source failure with zero provider calls, and hotels_info is the same
whatever the flight-side oracles were. -/
theorem C6_no_airport_source_witness :
    full_trip "source" = some (.vstr "Delhi")
    ∧ full_trip "destination" = some (.vstr "Goa")
    ∧ full_trip "start_date" = some (.vstr "June 10")
    ∧ full_trip "end_date" = some (.vstr "June 15")
    ∧ pyUpper (pyStrip " n/a ") = "N/A"
    ∧ (get_flights_info full_trip
        { source_code := " n/a ", destination_code := "GOI",
          start_date_fmt := "2025-06-10", end_date_fmt := "2025-06-15" }
        (fun _ _ _ => .ok "flight list") =
        { result := .error ("No airport found for source: " ++ JsonVal.pyStr (.vstr "Delhi"))
          providerCalls := 0 }
      ∧ (search_flights_and_hotels full_trip_state
          { fo := { source_code := " n/a ", destination_code := "GOI",
                    start_date_fmt := "2025-06-10", end_date_fmt := "2025-06-15" },
            fprov := fun _ _ _ => .ok "flight list", bf_resp := "no braces",
            bf_parse := fun _ => none,
            ho := { start_date_fmt := "2025-06-10", end_date_fmt := "2025-06-15" },
            hprov := fun _ => .ok "hotel list", bh_resp := "no braces",
            bh_parse := fun _ => none }).hotels_info =
        (search_flights_and_hotels full_trip_state
          { fo := { source_code := "DEL", destination_code := "GOI",
                    start_date_fmt := "2025-06-10", end_date_fmt := "2025-06-15" },
            fprov := fun _ _ _ => .error "provider down", bf_resp := "{ }",
            bf_parse := fun _ => some "sel",
            ho := { start_date_fmt := "2025-06-10", end_date_fmt := "2025-06-15" },
            hprov := fun _ => .ok "hotel list", bh_resp := "no braces",
            bh_parse := fun _ => none }).hotels_info) :=
  ⟨by decide, by decide, by decide, by decide, by decide,
   C6_no_airport_source full_trip (.vstr "Delhi") (.vstr "Goa")
     (.vstr "June 10") (.vstr "June 15")
     { source_code := " n/a ", destination_code := "GOI",
       start_date_fmt := "2025-06-10", end_date_fmt := "2025-06-15" }
     { source_code := "DEL", destination_code := "GOI",
       start_date_fmt := "2025-06-10", end_date_fmt := "2025-06-15" }
     (fun _ _ _ => .ok "flight list") (fun _ _ _ => .error "provider down")
     "no braces" "{ }" (fun _ => none) (fun _ => some "sel")
     { start_date_fmt := "2025-06-10", end_date_fmt := "2025-06-15" }
     (fun _ => .ok "hotel list") "no braces" (fun _ => none)
     full_trip_state
     (by decide) (by decide) (by decide) (by decide) (by decide)⟩

/-! ## Claim C8 -/

/-- C8: get_travel_destination always consults the suggestion model
once; when the start date is outside the 0..14-day horizon it performs
no weather-API lookup and returns the raw suggestion list unranked; the
weather API is consulted (once per candidate) and the re-rank model call
made only when the date is within the horizon. -/
theorem C8_forecast_horizon_gate (d : Int) (sugg : List Suggestion)
    (api : Suggestion → Except String String) (rerank : Option Suggestion) :
    (check_date_within_forecast_range d = false →
      get_travel_destination d sugg api rerank =
        { result := .suggestions sugg, suggestionCalls := 1,
          weatherCalls := 0, rerankCalled := false })
    ∧ ((get_travel_destination d sugg api rerank).weatherCalls ≠ 0 →
        check_date_within_forecast_range d = true)
    ∧ ((get_travel_destination d sugg api rerank).rerankCalled = true →
        check_date_within_forecast_range d = true)
    ∧ (get_travel_destination d sugg api rerank).suggestionCalls = 1
    ∧ (check_date_within_forecast_range d = true →
        (get_travel_destination d sugg api rerank).weatherCalls = sugg.length) := by
  by_cases hr : check_date_within_forecast_range d = true
  · refine ⟨fun h => absurd (hr.symm.trans h) (by decide), fun _ => hr,
      fun _ => hr, ?_, fun _ => ?_⟩
    · unfold get_travel_destination
      rw [if_neg (by simp [hr])]
      dsimp only
      repeat' split
      all_goals rfl
    · unfold get_travel_destination
      rw [if_neg (by simp [hr])]
      dsimp only
      repeat' split
      all_goals rfl
  · have hr' : check_date_within_forecast_range d = false := by
      cases h : check_date_within_forecast_range d
      · rfl
      · exact absurd h hr
    have hval : get_travel_destination d sugg api rerank =
        { result := .suggestions sugg, suggestionCalls := 1,
          weatherCalls := 0, rerankCalled := false } := by
      unfold get_travel_destination
      rw [if_pos (by simp [hr'])]
    refine ⟨fun _ => hval, ?_, ?_, ?_, fun h => absurd h hr⟩
    · intro h; rw [hval] at h; simp at h
    · intro h; rw [hval] at h; simp at h
    · rw [hval]

/-- C8 witness: thirty days out the gate is closed and the raw
suggestions come back with no weather call; five days out with one
candidate the weather API is consulted exactly once. -/
theorem C8_forecast_horizon_gate_witness :
    ((check_date_within_forecast_range 30 = false →
      get_travel_destination 30 [{ destination := "Goa", country := "India" }]
        (fun _ => .ok "sunny") (some { destination := "Goa", country := "India" }) =
        { result := .suggestions [{ destination := "Goa", country := "India" }],
          suggestionCalls := 1, weatherCalls := 0, rerankCalled := false })
    ∧ ((get_travel_destination 30 [{ destination := "Goa", country := "India" }]
        (fun _ => .ok "sunny")
        (some { destination := "Goa", country := "India" })).weatherCalls ≠ 0 →
        check_date_within_forecast_range 30 = true)
    ∧ ((get_travel_destination 30 [{ destination := "Goa", country := "India" }]
        (fun _ => .ok "sunny")
        (some { destination := "Goa", country := "India" })).rerankCalled = true →
        check_date_within_forecast_range 30 = true)
    ∧ (get_travel_destination 30 [{ destination := "Goa", country := "India" }]
        (fun _ => .ok "sunny")
        (some { destination := "Goa", country := "India" })).suggestionCalls = 1
    ∧ (check_date_within_forecast_range 30 = true →
        (get_travel_destination 30 [{ destination := "Goa", country := "India" }]
          (fun _ => .ok "sunny")
          (some { destination := "Goa", country := "India" })).weatherCalls = 1))
    ∧ check_date_within_forecast_range 5 = true
    ∧ (get_travel_destination 5 [{ destination := "Goa", country := "India" }]
        (fun _ => .ok "sunny")
        (some { destination := "Goa", country := "India" })).weatherCalls = 1 :=
  ⟨C8_forecast_horizon_gate 30 [{ destination := "Goa", country := "India" }]
     (fun _ => .ok "sunny") (some { destination := "Goa", country := "India" }),
   by decide,
   (C8_forecast_horizon_gate 5 [{ destination := "Goa", country := "India" }]
     (fun _ => .ok "sunny") (some { destination := "Goa", country := "India" })).2.2.2.2
     (by decide)⟩

/-! ## Claim C9 -/

/-- Plain joining of strings with a separator, the specification's
reading of repeated exactly n times joined by commas. -/
def joinSep (sep : String) : List String → String
  | [] => ""
  | [x] => x
  | x :: y :: ys => x ++ sep ++ joinSep sep (y :: ys)

lemma strRepeat_eq_joinSep (n : Nat) :
    strRepeat "8," (n + 1) = joinSep "," (List.replicate (n + 1) "8") ++ "," := by
  induction n with
  | zero => rfl
  | succ m ih =>
    have step : strRepeat "8," (m + 2) = "8," ++ strRepeat "8," (m + 1) := rfl
    rw [step, ih]
    apply (String.ext_iff).mpr
    simp only [data_append]
    rw [List.replicate_succ, List.replicate_succ (n := m + 1)]
    show ("8,").data ++ ((joinSep "," ("8" :: List.replicate m "8")).data ++ (",").data) =
      (("8").data ++ (",").data ++ (joinSep "," ("8" :: List.replicate m "8")).data) ++ (",").data
    simp

lemma strRepeat_succ_ne_empty (n : Nat) : strRepeat "8," (n + 1) ≠ "" := by
  intro h
  have hd := congrArg String.data h
  rw [strRepeat_eq_joinSep] at hd
  simp only [data_append] at hd
  simp at hd

/-- The child-ages synthesis computes the placeholder age repeated n
times joined by commas. -/
lemma children_ages_eq (m : Nat) :
    children_ages_of (m : Int) = joinSep "," (List.replicate m "8") := by
  cases m with
  | zero => rfl
  | succ k =>
    unfold children_ages_of pyStrMul
    have ht : ((k + 1 : Nat) : Int).toNat = k + 1 := rfl
    rw [ht]
    rw [if_neg (strRepeat_succ_ne_empty k)]
    rw [strRepeat_eq_joinSep k]
    rw [data_append]
    show String.mk ((joinSep "," (List.replicate (k + 1) "8")).data ++ [',']).dropLast = _
    rw [List.dropLast_concat]

/-- C9: when the declared child count is the nonnegative integer m (and
the other required fields are readable), the hotel adapter calls the
provider with children_ages equal to the placeholder age 8 repeated
exactly m times joined by commas — the empty string when m is zero. -/
theorem C9_children_ages
    (collected : Dict) (o : HotelLLM) (provider : HotelParams → Except String String)
    (dv sdv edv av ncv : JsonVal) (a : Int) (m : Nat)
    (hdst : collected "destination" = some dv)
    (hsd : collected "start_date" = some sdv)
    (hed : collected "end_date" = some edv)
    (hna : collected "number_of_adults" = some av)
    (hnc : collected "number_of_children" = some ncv)
    (hai : pyInt av = some a)
    (hni : pyInt ncv = some (m : Int)) :
    (get_hotels_info collected o provider).calledWith =
      some { location := dv.pyStr
             check_in_date := pyStrip o.start_date_fmt
             check_out_date := pyStrip o.end_date_fmt
             adults := a
             children := (m : Int)
             children_ages := joinSep "," (List.replicate m "8") }
    ∧ children_ages_of ((0 : Nat) : Int) = "" := by
  constructor
  · unfold get_hotels_info
    rw [hdst, hsd, hed, hna, hnc]
    simp only [hai, hni]
    rw [children_ages_eq]
    split <;> rfl
  · rfl

/-- C9 witness: with two declared children the provider receives the
ages string 8,8; with zero it would receive the empty string. -/
theorem C9_children_ages_witness :
    full_trip "destination" = some (.vstr "Goa")
    ∧ full_trip "number_of_adults" = some (.vint 2)
    ∧ pyInt (.vint 2) = some ((2 : Nat) : Int)
    ∧ ((get_hotels_info
        (dictSet full_trip "number_of_children" (.vint 2))
        { start_date_fmt := "2025-06-10", end_date_fmt := "2025-06-15" }
        (fun _ => .ok "hotel list")).calledWith =
      some { location := JsonVal.pyStr (.vstr "Goa")
             check_in_date := pyStrip "2025-06-10"
             check_out_date := pyStrip "2025-06-15"
             adults := 2
             children := ((2 : Nat) : Int)
             children_ages := joinSep "," (List.replicate 2 "8") }
      ∧ children_ages_of ((0 : Nat) : Int) = "")
    ∧ joinSep "," (List.replicate 2 "8") = "8,8" :=
  ⟨by decide, by decide, by decide,
   C9_children_ages (dictSet full_trip "number_of_children" (.vint 2))
     { start_date_fmt := "2025-06-10", end_date_fmt := "2025-06-15" }
     (fun _ => .ok "hotel list")
     (.vstr "Goa") (.vstr "June 10") (.vstr "June 15") (.vint 2) (.vint 2)
     2 2
     (by decide) (by decide) (by decide) (by decide) (by decide)
     (by decide) (by decide),
   by decide⟩

/-! ## Claim C10 -/

/-- Merging a record whose entries for a key are all falsy leaves that
key of the dictionary untouched. -/
lemma dictUpdate_falsy_key (kvs : List (String × JsonVal)) :
    ∀ d : Dict, ∀ f : String,
      kvs.all (fun kv => (kv.1 != f) || !kv.2.truthy) = true →
      dictUpdate d (filterTruthy kvs) f = d f := by
  induction kvs with
  | nil => intro d f _; rfl
  | cons kv rest ih =>
    intro d f hall
    rw [List.all_cons] at hall
    have h1 := (Bool.and_eq_true _ _).mp hall
    by_cases ht : kv.2.truthy = true
    · have hk : kv.1 ≠ f := by
        have := h1.1
        rw [ht] at this
        simpa using this
      have hf : filterTruthy (kv :: rest) = kv :: filterTruthy rest := by
        simp [filterTruthy, ht]
      have hset : dictSet d kv.1 kv.2 f = d f := by
        unfold dictSet
        rw [if_neg (fun h => hk h.symm)]
      rw [hf, dictUpdate_cons, ih (dictSet d kv.1 kv.2) f h1.2, hset]
    · have hf : filterTruthy (kv :: rest) = filterTruthy rest := by
        simp [filterTruthy, ht]
      rw [hf, ih d f h1.2]

/-- C10: the merge keeps only truthy extracted values. The integer 0,
the empty string and null are falsy and get discarded before merging, so
an extraction whose entries for number_of_children are all falsy leaves
that field exactly as it was; when the field was missing it stays in the
missing list and the completeness check stays false. -/
theorem C10_falsy_discarded (d : Dict) (info : List (String × JsonVal))
    (hmiss : fieldMissing d "number_of_children" = true)
    (hall : info.all (fun kv => (kv.1 != "number_of_children") || !kv.2.truthy) = true) :
    dictUpdate d (filterTruthy info) "number_of_children" = d "number_of_children"
    ∧ fieldMissing (dictUpdate d (filterTruthy info)) "number_of_children" = true
    ∧ "number_of_children" ∈ get_missing_fields (dictUpdate d (filterTruthy info))
    ∧ is_info_complete (dictUpdate d (filterTruthy info)) = false
    ∧ JsonVal.truthy (.vint 0) = false
    ∧ JsonVal.truthy (.vstr "") = false
    ∧ JsonVal.truthy .vnull = false := by
  have h1 := dictUpdate_falsy_key info d "number_of_children" hall
  have h2 : fieldMissing (dictUpdate d (filterTruthy info)) "number_of_children" = true := by
    rw [fieldMissing, h1]
    rw [fieldMissing] at hmiss
    exact hmiss
  have h3 : "number_of_children" ∈ get_missing_fields (dictUpdate d (filterTruthy info)) := by
    rw [get_missing_fields]
    exact List.mem_filter.mpr ⟨by decide, h2⟩
  refine ⟨h1, h2, h3, ?_, rfl, rfl, rfl⟩
  have hne := List.ne_nil_of_mem h3
  rw [is_info_complete]
  cases h : get_missing_fields (dictUpdate d (filterTruthy info)) with
  | nil => exact absurd h hne
  | cons x xs => rfl

/-- C10 witness: an extraction reporting number_of_children as the
integer 0 into a fresh session leaves the field missing and the
completeness check false. -/
theorem C10_falsy_discarded_witness :
    fieldMissing emptyDict "number_of_children" = true
    ∧ ([("number_of_children", JsonVal.vint 0)].all
        (fun kv => (kv.1 != "number_of_children") || !kv.2.truthy) = true)
    ∧ (dictUpdate emptyDict (filterTruthy [("number_of_children", JsonVal.vint 0)])
        "number_of_children" = emptyDict "number_of_children"
      ∧ fieldMissing (dictUpdate emptyDict
          (filterTruthy [("number_of_children", JsonVal.vint 0)]))
          "number_of_children" = true
      ∧ "number_of_children" ∈ get_missing_fields (dictUpdate emptyDict
          (filterTruthy [("number_of_children", JsonVal.vint 0)]))
      ∧ is_info_complete (dictUpdate emptyDict
          (filterTruthy [("number_of_children", JsonVal.vint 0)])) = false
      ∧ JsonVal.truthy (.vint 0) = false
      ∧ JsonVal.truthy (.vstr "") = false
      ∧ JsonVal.truthy .vnull = false) :=
  ⟨by decide, by decide,
   C10_falsy_discarded emptyDict [("number_of_children", JsonVal.vint 0)]
     (by decide) (by decide)⟩

/-! ## Claim C1 -/

/-- C1 counterexample: the claim states the missing fields come back in
the order source, destination, start_date, end_date, number_of_adults,
number_of_children, budget_per_person, travel_style; but on the record
with only destination set, the code's output puts budget_per_person
before number_of_children (the declared order of backend.py line 18),
so the claimed list is not what the code returns. -/
theorem C1_counterexample :
    get_missing_fields only_destination ≠
      ["source", "start_date", "end_date", "number_of_adults",
       "number_of_children", "budget_per_person", "travel_style"] := by
  decide

/-- C1 (amended): get_missing_fields returns exactly the required fields
that are absent or falsy, in the fixed declared order of backend.py
line 18 (source, destination, start_date, end_date, number_of_adults,
budget_per_person, number_of_children, travel_style — never input
order); for a record with only destination set, the other seven come
back in that declared order. -/
theorem C1_missing_fields_order (d : Dict) :
    (∀ f, f ∈ get_missing_fields d ↔ f ∈ required_fields ∧ fieldMissing d f = true)
    ∧ (get_missing_fields d).Sublist required_fields
    ∧ get_missing_fields only_destination =
        ["source", "start_date", "end_date", "number_of_adults",
         "budget_per_person", "number_of_children", "travel_style"] := by
  refine ⟨fun f => ?_, List.filter_sublist _, by decide⟩
  simp [get_missing_fields, List.mem_filter]

end Trippy
